import Mathlib

/-!
Verification model of the admin-console query page
(src/apps/ai/clients/admin-console/src/pages/queries/[queryId]/index.tsx).

The page keeps a local query state (`useState`), seeds it once from the
server loader (`useQuery`), updates it from three mutation dispatchers
(resubmit / execute / put) and selects one of four views on every render.
The definitions below are a shallow embedding of that component: the
seeding effect body, the three handler bodies and the view-selection
chain are translated directly from the source; the asynchronous remote
calls are passed in as `Except`-valued functions, and the loader is a
record of its `data` / `isLoading` / `error` fields.
-/

/-- The query resource: an opaque string identifier plus a mutable result
payload.  The GET endpoint omits `sql_result`, which is why the page
latches on the first loaded value. -/
structure Query where
  id : String
  sql_query : String
  sql_result : Option String
deriving Repr, DecidableEq

/-- Partial-update payload for the put dispatcher; its shape is opaque to
the page, so it is modelled as a plain wrapper. -/
structure QueryPutRequest where
  payload : String
deriving Repr, DecidableEq

/-- The four possible render outputs of the page.  `queryWorkspace`
records the local query state the workspace is bound to (the source
renders `mapQuery query`, an external presentation transform applied to
exactly this value). -/
inductive PageContent where
  | loadingQuery : PageContent
  | queryError : PageContent
  | queryWorkspace : Query → PageContent
  | empty : PageContent
deriving Repr, DecidableEq

/-- View-selection chain of the component, translated from the source:
`if (isLoadingServerQuery && !query) pageContent = LoadingQuery`
`else if (error) pageContent = QueryError`
`else if (query) pageContent = QueryWorkspace(mapQuery(query), ...)`
with the initial value `<></>` kept when no branch fires. -/
def pageContent (isLoadingServerQuery : Bool) (error : Option String)
    (query : Option Query) : PageContent :=
  if isLoadingServerQuery && query.isNone then PageContent.loadingQuery
  else if error.isSome then PageContent.queryError
  else
    match query with
    | some q => PageContent.queryWorkspace q
    | none => PageContent.empty

/-- Body of the `useEffect` that seeds the local state from the loader:
`if (serverQuery) setQuery((prevState) => prevState === undefined ? serverQuery : prevState)`.
First argument is the previous local state, second the loader's data. -/
def latchUpdate (prevState serverQuery : Option Query) : Option Query :=
  match serverQuery with
  | some sq =>
    match prevState with
    | none => some sq
    | some p => some p
  | none => prevState

/-- Local query state after a sequence of loader data notifications, the
seeding effect running once per notification. -/
def applyNotifications (st : Option Query) (ds : List (Option Query)) :
    Option Query :=
  ds.foldl latchUpdate st

/-- Visible state of the loader (`useQuery`): its `data`, `isLoading` and
`error` fields. -/
structure LoaderSnapshot where
  data : Option Query
  isLoading : Bool
  error : Option String
deriving Repr, DecidableEq

/-- One observable action of a dispatcher: a `setQuery` state write or the
`mutate()` refresh call. -/
inductive PageEvent where
  | setQueryWrite : Query → PageEvent
  | mutateCall : PageEvent
deriving Repr, DecidableEq

/-- Modelled from the spec: `mutate`, the loader's `refresh()` operation of
the `useQuery` hook, whose implementation is not under src/.  Per the
consumed contract it re-fetches and updates the loader's `data` / `error`
asynchronously, and its returned promise (`Promise<void>`) is awaited only
as a completion signal — a failed re-fetch surfaces through the loader's
`error` state, not through the returned value.  `fetchOutcome` is the
result of the underlying re-fetch. -/
def mutateRefresh (fetchOutcome : Except String Query) (l : LoaderSnapshot) :
    Unit × LoaderSnapshot :=
  match fetchOutcome with
  | Except.ok q => ((), { l with data := some q, error := none })
  | Except.error e => ((), { l with error := some e })

/-- Result of running one mutation dispatcher to completion: the local
query state, the loader state, the value the dispatcher's promise settles
with, and the ordered trace of its observable actions. -/
structure DispatchResult where
  query : Option Query
  loader : LoaderSnapshot
  outcome : Except String Unit
  trace : List PageEvent
deriving Repr

/-- Common body of the three handlers, translated from the source:
`const newQuery = await remote(...); setQuery(newQuery); return mutate()`.
A rejected remote call makes `await` rethrow before the state write, so
the state and loader are untouched, no refresh is issued, and the error
propagates as the dispatcher's outcome. -/
def runHandler (remote : Except String Query) (fetchOutcome : Except String Query)
    (st : Option Query) (l : LoaderSnapshot) : DispatchResult :=
  match remote with
  | Except.error e => ⟨st, l, Except.error e, []⟩
  | Except.ok newQuery =>
    let r := mutateRefresh fetchOutcome l
    ⟨some newQuery, r.2, Except.ok r.1,
      [PageEvent.setQueryWrite newQuery, PageEvent.mutateCall]⟩

/-- `handleResubmitQuery`:
`const newQuery = await resubmitQuery(promptId); setQuery(newQuery); return mutate()`. -/
def handleResubmitQuery (resubmitQuery : String → Except String Query)
    (promptId : String) (fetchOutcome : Except String Query)
    (st : Option Query) (l : LoaderSnapshot) : DispatchResult :=
  runHandler (resubmitQuery promptId) fetchOutcome st l

/-- `handleExecuteQuery`:
`const newQuery = await executeQuery(promptId, sql_query); setQuery(newQuery); return mutate()`. -/
def handleExecuteQuery (executeQuery : String → String → Except String Query)
    (promptId sql_query : String) (fetchOutcome : Except String Query)
    (st : Option Query) (l : LoaderSnapshot) : DispatchResult :=
  runHandler (executeQuery promptId sql_query) fetchOutcome st l

/-- `handlePutQuery`:
`const newQuery = await putQuery(promptId, puts); setQuery(newQuery); return mutate()`. -/
def handlePutQuery (putQuery : String → QueryPutRequest → Except String Query)
    (promptId : String) (puts : QueryPutRequest) (fetchOutcome : Except String Query)
    (st : Option Query) (l : LoaderSnapshot) : DispatchResult :=
  runHandler (putQuery promptId puts) fetchOutcome st l

/-- Render sequence of the page at loader-notification granularity: each
notification runs the seeding effect, and the view selector is then
evaluated on the loader's flags and the resulting local state. -/
def rendersAfter (st : Option Query) : List LoaderSnapshot → List PageContent
  | [] => []
  | snap :: rest =>
    pageContent snap.isLoading snap.error (latchUpdate st snap.data) ::
      rendersAfter (latchUpdate st snap.data) rest

/-- Full render context of the component: route parameter, loader fields
and local query state. -/
structure ComponentContext where
  promptId : String
  serverQuery : Option Query
  isLoadingServerQuery : Bool
  error : Option String
  query : Option Query
deriving Repr, DecidableEq

/-- The component's rendered content as a function of its full context:
the selection chain reads only the loading flag, the error and the local
query state. -/
def renderView (c : ComponentContext) : PageContent :=
  pageContent c.isLoadingServerQuery c.error c.query

/-- Page-level state across events: the route parameter and the local
query state. -/
structure PageMachine where
  promptId : String
  query : Option Query
deriving Repr, DecidableEq

/-- Events the page reacts to. -/
inductive PageInput where
  | routeChange : String → PageInput
  | loaderData : Option Query → PageInput
  | mutationSuccess : Query → PageInput
  | mutationFailure : PageInput
deriving Repr, DecidableEq

/-- One step of the page: a route-parameter change updates only the
identifier (the source never resets the `useState` on identifier change
and the effect depends only on `serverQuery`), a loader notification runs
the seeding effect, a successful mutation writes its result, a failed
mutation writes nothing. -/
def stepMachine (s : PageMachine) : PageInput → PageMachine
  | PageInput.routeChange newId => { s with promptId := newId }
  | PageInput.loaderData d => { s with query := latchUpdate s.query d }
  | PageInput.mutationSuccess q => { s with query := some q }
  | PageInput.mutationFailure => s

/-- A concrete query value used by the witnesses. -/
def sampleQuery1 : Query := ⟨"q-1", "SELECT 1", some "r1"⟩

/-- A second concrete query value used by the witnesses. -/
def sampleQuery2 : Query := ⟨"q-2", "SELECT 2", some "r2"⟩

/-- A third concrete query value used by the witnesses. -/
def sampleQuery3 : Query := ⟨"q-3", "SELECT 3", none⟩

/-- A concrete edit payload used by the witnesses. -/
def samplePuts : QueryPutRequest := ⟨"edited sql"⟩

/-- A concrete loader snapshot used by the witnesses. -/
def sampleLoader : LoaderSnapshot := ⟨none, false, none⟩

theorem latchUpdate_of_some (q : Query) (d : Option Query) :
    latchUpdate (some q) d = some q := by
  cases d <;> rfl

theorem latchUpdate_of_none (d : Option Query) :
    latchUpdate none d = d := by
  cases d <;> rfl

theorem applyNotifications_of_some (q : Query) (ds : List (Option Query)) :
    applyNotifications (some q) ds = some q := by
  induction ds with
  | nil => rfl
  | cons d rest ih =>
    show applyNotifications (latchUpdate (some q) d) rest = some q
    rw [latchUpdate_of_some]
    exact ih

/-- C1.  One-shot latch: over any sequence of loader data notifications,
an unset local query state adopts exactly the first defined loader value
(adopted once, further notifications ignored), and a local query state
that is already set — whether by that seed or by a mutation result — is
left unchanged by every notification, even when the loader value
differs from the held one. -/
theorem one_shot_latch (st : Option Query) (ds : List (Option Query)) :
    applyNotifications st ds =
      match st with
      | some q => some q
      | none => ds.findSome? id := by
  cases st with
  | some q => exact applyNotifications_of_some q ds
  | none =>
    induction ds with
    | nil => rfl
    | cons d rest ih =>
      cases d with
      | none =>
        show applyNotifications (latchUpdate none none) rest = _
        rw [latchUpdate_of_none]
        exact ih
      | some sq =>
        show applyNotifications (latchUpdate none (some sq)) rest = _
        rw [latchUpdate_of_none]
        exact applyNotifications_of_some sq rest

theorem runHandler_ok (q : Query) (fetchOutcome : Except String Query)
    (st : Option Query) (l : LoaderSnapshot) :
    (runHandler (Except.ok q) fetchOutcome st l).query = some q ∧
    (runHandler (Except.ok q) fetchOutcome st l).trace
      = [PageEvent.setQueryWrite q, PageEvent.mutateCall] := by
  cases fetchOutcome <;> exact ⟨rfl, rfl⟩

theorem pageContent_of_some (b : Bool) (q : Query) :
    pageContent b none (some q) = PageContent.queryWorkspace q := by
  cases b <;> rfl

/-- C2.  Each of the three dispatchers, when its remote call resolves with
a query, overwrites the local query state with that query unconditionally
(whatever the previous state, set or not), performs the state write
strictly before issuing the loader refresh (trace order), and the next
error-free render shows the workspace bound to that query. -/
theorem dispatchers_overwrite_then_refresh
    (resubmitQuery : String → Except String Query)
    (executeQuery : String → String → Except String Query)
    (putQuery : String → QueryPutRequest → Except String Query)
    (promptId sql_query : String) (puts : QueryPutRequest)
    (fetchOutcome : Except String Query) (st : Option Query) (l : LoaderSnapshot)
    (q1 q2 q3 : Query)
    (h1 : resubmitQuery promptId = Except.ok q1)
    (h2 : executeQuery promptId sql_query = Except.ok q2)
    (h3 : putQuery promptId puts = Except.ok q3) :
    ((handleResubmitQuery resubmitQuery promptId fetchOutcome st l).query = some q1 ∧
     (handleResubmitQuery resubmitQuery promptId fetchOutcome st l).trace
       = [PageEvent.setQueryWrite q1, PageEvent.mutateCall] ∧
     (∀ b : Bool, pageContent b none
       (handleResubmitQuery resubmitQuery promptId fetchOutcome st l).query
       = PageContent.queryWorkspace q1)) ∧
    ((handleExecuteQuery executeQuery promptId sql_query fetchOutcome st l).query = some q2 ∧
     (handleExecuteQuery executeQuery promptId sql_query fetchOutcome st l).trace
       = [PageEvent.setQueryWrite q2, PageEvent.mutateCall] ∧
     (∀ b : Bool, pageContent b none
       (handleExecuteQuery executeQuery promptId sql_query fetchOutcome st l).query
       = PageContent.queryWorkspace q2)) ∧
    ((handlePutQuery putQuery promptId puts fetchOutcome st l).query = some q3 ∧
     (handlePutQuery putQuery promptId puts fetchOutcome st l).trace
       = [PageEvent.setQueryWrite q3, PageEvent.mutateCall] ∧
     (∀ b : Bool, pageContent b none
       (handlePutQuery putQuery promptId puts fetchOutcome st l).query
       = PageContent.queryWorkspace q3)) := by
  unfold handleResubmitQuery handleExecuteQuery handlePutQuery
  rw [h1, h2, h3]
  refine ⟨⟨(runHandler_ok q1 fetchOutcome st l).1, (runHandler_ok q1 fetchOutcome st l).2, ?_⟩,
    ⟨(runHandler_ok q2 fetchOutcome st l).1, (runHandler_ok q2 fetchOutcome st l).2, ?_⟩,
    ⟨(runHandler_ok q3 fetchOutcome st l).1, (runHandler_ok q3 fetchOutcome st l).2, ?_⟩⟩ <;>
  · intro b
    rw [(runHandler_ok _ fetchOutcome st l).1]
    exact pageContent_of_some b _

theorem dispatchers_overwrite_then_refresh_witness :
    (handleResubmitQuery (fun _ => Except.ok sampleQuery1) "p1" (Except.ok sampleQuery1)
        (some sampleQuery3) sampleLoader).query = some sampleQuery1 ∧
    (handleExecuteQuery (fun _ _ => Except.ok sampleQuery2) "p1" "SELECT 1"
        (Except.ok sampleQuery1) (some sampleQuery3) sampleLoader).query = some sampleQuery2 ∧
    (handlePutQuery (fun _ _ => Except.ok sampleQuery3) "p1" samplePuts
        (Except.ok sampleQuery1) (some sampleQuery3) sampleLoader).query = some sampleQuery3 :=
  have T := dispatchers_overwrite_then_refresh (fun _ => Except.ok sampleQuery1)
    (fun _ _ => Except.ok sampleQuery2) (fun _ _ => Except.ok sampleQuery3)
    "p1" "SELECT 1" samplePuts (Except.ok sampleQuery1) (some sampleQuery3) sampleLoader
    sampleQuery1 sampleQuery2 sampleQuery3 rfl rfl rfl
  ⟨T.1.1, T.2.1.1, T.2.2.1⟩

/-- C3.  Each of the three dispatchers, when its remote call rejects,
leaves the local query state and the loader untouched, issues no refresh
(empty action trace), and settles with exactly that rejection, which thus
propagates uncaught to the dispatcher's caller. -/
theorem dispatchers_error_atomicity
    (resubmitQuery : String → Except String Query)
    (executeQuery : String → String → Except String Query)
    (putQuery : String → QueryPutRequest → Except String Query)
    (promptId sql_query : String) (puts : QueryPutRequest)
    (fetchOutcome : Except String Query) (st : Option Query) (l : LoaderSnapshot)
    (e1 e2 e3 : String)
    (h1 : resubmitQuery promptId = Except.error e1)
    (h2 : executeQuery promptId sql_query = Except.error e2)
    (h3 : putQuery promptId puts = Except.error e3) :
    handleResubmitQuery resubmitQuery promptId fetchOutcome st l
      = ⟨st, l, Except.error e1, []⟩ ∧
    handleExecuteQuery executeQuery promptId sql_query fetchOutcome st l
      = ⟨st, l, Except.error e2, []⟩ ∧
    handlePutQuery putQuery promptId puts fetchOutcome st l
      = ⟨st, l, Except.error e3, []⟩ := by
  unfold handleResubmitQuery handleExecuteQuery handlePutQuery
  rw [h1, h2, h3]
  exact ⟨rfl, rfl, rfl⟩

theorem dispatchers_error_atomicity_witness :
    handleResubmitQuery (fun _ => Except.error "resubmit down") "p1"
        (Except.ok sampleQuery1) (some sampleQuery1) sampleLoader
      = ⟨some sampleQuery1, sampleLoader, Except.error "resubmit down", []⟩ ∧
    handleExecuteQuery (fun _ _ => Except.error "execute down") "p1" "SELECT 1"
        (Except.ok sampleQuery1) (some sampleQuery1) sampleLoader
      = ⟨some sampleQuery1, sampleLoader, Except.error "execute down", []⟩ ∧
    handlePutQuery (fun _ _ => Except.error "put down") "p1" samplePuts
        (Except.ok sampleQuery1) (some sampleQuery1) sampleLoader
      = ⟨some sampleQuery1, sampleLoader, Except.error "put down", []⟩ :=
  dispatchers_error_atomicity (fun _ => Except.error "resubmit down")
    (fun _ _ => Except.error "execute down") (fun _ _ => Except.error "put down")
    "p1" "SELECT 1" samplePuts (Except.ok sampleQuery1) (some sampleQuery1) sampleLoader
    "resubmit down" "execute down" "put down" rfl rfl rfl

/-- C5.  Refresh-after-mutation failure is silent at the page level: after
a successful remote mutation, each dispatcher holds the mutation's own
result in the local query state whatever the re-fetch does, and settles
with an outcome identical to the one of any other re-fetch result, so the
dispatcher's caller cannot distinguish a failed refresh from a successful
one. -/
theorem refresh_failure_silent (q : Query) (e : String)
    (fetchOutcome : Except String Query) (st : Option Query) (l : LoaderSnapshot)
    (promptId sql_query : String) (puts : QueryPutRequest) :
    ((handleResubmitQuery (fun _ => Except.ok q) promptId (Except.error e) st l).query
        = some q ∧
     (handleResubmitQuery (fun _ => Except.ok q) promptId (Except.error e) st l).outcome
        = (handleResubmitQuery (fun _ => Except.ok q) promptId fetchOutcome st l).outcome) ∧
    ((handleExecuteQuery (fun _ _ => Except.ok q) promptId sql_query (Except.error e) st l).query
        = some q ∧
     (handleExecuteQuery (fun _ _ => Except.ok q) promptId sql_query (Except.error e) st l).outcome
        = (handleExecuteQuery (fun _ _ => Except.ok q) promptId sql_query fetchOutcome st l).outcome) ∧
    ((handlePutQuery (fun _ _ => Except.ok q) promptId puts (Except.error e) st l).query
        = some q ∧
     (handlePutQuery (fun _ _ => Except.ok q) promptId puts (Except.error e) st l).outcome
        = (handlePutQuery (fun _ _ => Except.ok q) promptId puts fetchOutcome st l).outcome) := by
  cases fetchOutcome <;> exact ⟨⟨rfl, rfl⟩, ⟨rfl, rfl⟩, ⟨rfl, rfl⟩⟩

/-- C4.  View-selector precedence: the page renders Loading exactly when
the loader is loading and the local query state is unset; otherwise the
error view whenever the loader reports an error, even if the local state
holds a value; otherwise the workspace bound to the local state when it
is set; otherwise the empty view. -/
theorem view_selector_precedence (isLoadingServerQuery : Bool)
    (error : Option String) (query : Option Query) :
    (pageContent isLoadingServerQuery error query = PageContent.loadingQuery ↔
       isLoadingServerQuery = true ∧ query = none) ∧
    (¬(isLoadingServerQuery = true ∧ query = none) → error.isSome = true →
       pageContent isLoadingServerQuery error query = PageContent.queryError) ∧
    (error = none → ∀ q, query = some q →
       pageContent isLoadingServerQuery error query = PageContent.queryWorkspace q) ∧
    (¬(isLoadingServerQuery = true ∧ query = none) → error = none → query = none →
       pageContent isLoadingServerQuery error query = PageContent.empty) := by
  cases isLoadingServerQuery <;> cases error <;> cases query <;>
    simp [pageContent]

theorem view_selector_precedence_witness :
    pageContent false (some "fetch failed") (some sampleQuery1)
      = PageContent.queryError :=
  (view_selector_precedence false (some "fetch failed") (some sampleQuery1)).2.1
    (by simp) rfl

/-- C6.  Initial-load sequence: when the loader first reports loading with
no data and later reports a loaded query with no error, with no mutation
in between, the page renders Loading first and then the workspace bound
to that query. -/
theorem initial_load_sequence (q1 : Query) :
    rendersAfter none [⟨none, true, none⟩, ⟨some q1, false, none⟩]
      = [PageContent.loadingQuery, PageContent.queryWorkspace q1] := rfl

/-- C8.  View selection is deterministic in the triple (loading flag,
error, local query state): two renders whose contexts agree on that
triple select the same content, whatever their route parameter or loader
data. -/
theorem view_selection_deterministic (c1 c2 : ComponentContext)
    (hl : c1.isLoadingServerQuery = c2.isLoadingServerQuery)
    (he : c1.error = c2.error) (hq : c1.query = c2.query) :
    renderView c1 = renderView c2 := by
  unfold renderView
  rw [hl, he, hq]

theorem view_selection_deterministic_witness :
    renderView ⟨"a", none, false, none, some sampleQuery1⟩
      = renderView ⟨"b", some sampleQuery2, false, none, some sampleQuery1⟩ :=
  view_selection_deterministic ⟨"a", none, false, none, some sampleQuery1⟩
    ⟨"b", some sampleQuery2, false, none, some sampleQuery1⟩ rfl rfl rfl

theorem stepMachine_loaderData_keeps (q : Query) :
    ∀ (ds : List (Option Query)) (s : PageMachine), s.query = some q →
      ((ds.map PageInput.loaderData).foldl stepMachine s).query = some q := by
  intro ds
  induction ds with
  | nil => intro s h; exact h
  | cons d rest ih =>
    intro s h
    refine ih _ ?_
    show (latchUpdate s.query d) = some q
    rw [h, latchUpdate_of_some]

/-- C9.  Changing the route parameter without unmounting does not re-arm
the latch: the identifier is updated, the local query state keeps the
value it held for the previous identifier, and every loader value fetched
for the new identifier is ignored while that state is set. -/
theorem route_change_keeps_latch (s : PageMachine) (q : Query) (newId : String)
    (ds : List (Option Query)) (h : s.query = some q) :
    (stepMachine s (PageInput.routeChange newId)).promptId = newId ∧
    (stepMachine s (PageInput.routeChange newId)).query = some q ∧
    ((ds.map PageInput.loaderData).foldl stepMachine
        (stepMachine s (PageInput.routeChange newId))).query = some q :=
  ⟨rfl, h, stepMachine_loaderData_keeps q ds _ h⟩

theorem route_change_keeps_latch_witness :
    (stepMachine ⟨"id-1", some sampleQuery1⟩ (PageInput.routeChange "id-2")).promptId
      = "id-2" ∧
    (([some sampleQuery2, none].map PageInput.loaderData).foldl stepMachine
        (stepMachine ⟨"id-1", some sampleQuery1⟩ (PageInput.routeChange "id-2"))).query
      = some sampleQuery1 :=
  have T := route_change_keeps_latch ⟨"id-1", some sampleQuery1⟩ sampleQuery1 "id-2"
    [some sampleQuery2, none] rfl
  ⟨T.1, T.2.2⟩

theorem stepMachine_keeps_isSome (s : PageMachine) (i : PageInput)
    (h : s.query.isSome = true) : (stepMachine s i).query.isSome = true := by
  cases i with
  | routeChange newId => exact h
  | loaderData d =>
    obtain ⟨q, hq⟩ := Option.isSome_iff_exists.mp h
    show (latchUpdate s.query d).isSome = true
    rw [hq, latchUpdate_of_some]
    rfl
  | mutationSuccess q => rfl
  | mutationFailure => exact h

/-- C10.  The local query state never goes from defined back to
undefined: the seeding effect only writes a defined loader value and each
dispatcher writes the query returned by its remote call, so once set the
state holds some query after every further event. -/
theorem query_state_never_unset (s : PageMachine) (inputs : List PageInput)
    (h : s.query.isSome = true) :
    (inputs.foldl stepMachine s).query.isSome = true := by
  induction inputs generalizing s with
  | nil => exact h
  | cons i rest ih => exact ih _ (stepMachine_keeps_isSome s i h)

theorem query_state_never_unset_witness :
    ([PageInput.routeChange "id-2", PageInput.loaderData none,
        PageInput.mutationSuccess sampleQuery2, PageInput.mutationFailure].foldl
        stepMachine ⟨"id-1", some sampleQuery1⟩).query.isSome = true :=
  query_state_never_unset ⟨"id-1", some sampleQuery1⟩
    [PageInput.routeChange "id-2", PageInput.loaderData none,
      PageInput.mutationSuccess sampleQuery2, PageInput.mutationFailure] rfl
